import Mathlib

/-!
# trr-HelloWorld: the Verify / Discover / Report receptor

A shallow embedding of `src/trr-HelloWorld/main.go`.

* A Go `error` value is an `Option String`; `none` is the nil error.
* A Go pointer `*Receptor` is an `Option Receptor`; `none` is the nil pointer.
* The `interface{}` credential argument is a `Credentials` value recording the
  dynamic type it carries, so that the type assertion `credentials.(*Receptor)`
  and the field access `c.FirstName` can fail the way they do in Go.
* A method that may stop with a run-time failure returns `Except Panic _`.
* The containers of the `receptor_sdk` package (service entities, evidence,
  report) are append-only lists.
* For what a call leaves behind and what it finds, Report is also given over an
  explicit store of SDK objects (`ReportIn`), where the constructors allocate
  and the `Add` methods write through a pointer.
-/

namespace HelloWorld

/-! ## Go run-time values -/

/-- The Go `error` interface: `none` is `nil`. -/
abbrev GoError := Option String

/-- Run-time failures reachable from the receptor methods. -/
inductive Panic where
  /-- A type assertion `x.(*Receptor)` on a value of another dynamic type. -/
  | typeAssertion
  /-- A field access through a nil pointer. -/
  | nilDereference
  deriving DecidableEq, Repr

/-! ## Data model of `main.go` -/

def receptorName : String := "trr-custom"

def serviceName1 : String := "Translate"

/-- The credential record, `type Receptor struct`. -/
structure Receptor where
  FirstName : String
  deriving DecidableEq, Repr

/-- One row of the translation evidence, `type TrusteroTranslationRow struct`. -/
structure TrusteroTranslationRow where
  LangId : String
  Language : String
  Phrase : String
  deriving DecidableEq, Repr

/-- The `interface{}` argument of Verify, Discover and Report, by dynamic type. -/
inductive Credentials where
  /-- The nil interface value. -/
  | nilInterface
  /-- A `*Receptor`, possibly the nil pointer. -/
  | receptorPtr (p : Option Receptor)
  /-- A value of any other dynamic type, named by its type. -/
  | foreign (typeName : String)
  deriving DecidableEq, Repr

/-- The type assertion `credentials.(*Receptor)`. -/
def assertReceptor : Credentials → Except Panic (Option Receptor)
  | .receptorPtr p => .ok p
  | .nilInterface => .error .typeAssertion
  | .foreign _ => .error .typeAssertion

/-- The field access `c.FirstName` through a `*Receptor`. -/
def derefFirstName : Option Receptor → Except Panic String
  | some c => .ok c.FirstName
  | none => .error .nilDereference

/-! ## The `receptor_sdk` containers -/

/-- Modelled from the spec: `receptor_v1.ServiceEntity` of the external SDK, the
quadruple (serviceName, entityType, displayName, identifier). -/
structure ServiceEntity where
  serviceName : String
  entityType : String
  displayName : String
  identifier : String
  deriving DecidableEq, Repr

/-- Modelled from the spec: `receptor_sdk.ServiceEntities` of the external SDK, the
list of entities built by one Discover call. -/
structure ServiceEntities where
  Entities : List ServiceEntity
  deriving DecidableEq, Repr

/-- Modelled from the spec: `receptor_sdk.NewServiceEntities` of the external SDK,
an empty entity list. -/
def NewServiceEntities : ServiceEntities := ⟨[]⟩

/-- Modelled from the spec: `ServiceEntities.AddService` of the external SDK,
appending one entity. -/
def ServiceEntities.AddService (s : ServiceEntities)
    (serviceName entityType displayName identifier : String) : ServiceEntities :=
  ⟨s.Entities ++ [⟨serviceName, entityType, displayName, identifier⟩]⟩

/-- Modelled from the spec: a source citation of the external SDK, the pair
(referenceURI, observedValue). -/
structure Source where
  uri : String
  observed : String
  deriving DecidableEq, Repr

/-- Modelled from the spec: `receptor_sdk.Evidence` of the external SDK, a named,
captioned, described table: ordered citations and ordered rows. -/
structure Evidence where
  ServiceName : String
  EntityType : String
  Caption : String
  Description : String
  Sources : List Source
  Rows : List TrusteroTranslationRow
  deriving DecidableEq, Repr

/-- Modelled from the spec: `receptor_sdk.NewEvidence` of the external SDK, an
evidence with no citation and no row. -/
def NewEvidence (serviceName entityType caption description : String) : Evidence :=
  { ServiceName := serviceName, EntityType := entityType, Caption := caption,
    Description := description, Sources := [], Rows := [] }

/-- Modelled from the spec: `Evidence.AddSource` of the external SDK, appending
one citation. -/
def Evidence.AddSource (ev : Evidence) (uri observed : String) : Evidence :=
  { ev with Sources := ev.Sources ++ [⟨uri, observed⟩] }

/-- Modelled from the spec: `Evidence.AddRow` of the external SDK, appending
one row. -/
def Evidence.AddRow (ev : Evidence) (row : TrusteroTranslationRow) : Evidence :=
  { ev with Rows := ev.Rows ++ [row] }

/-- Modelled from the spec: `receptor_sdk.Report` of the external SDK, an ordered
sequence of evidences. -/
structure ReportObj where
  Evidences : List Evidence
  deriving DecidableEq, Repr

/-- Modelled from the spec: `receptor_sdk.NewReport` of the external SDK, an
empty report. -/
def NewReport : ReportObj := ⟨[]⟩

/-- Modelled from the spec: `Report.AddEvidence` of the external SDK, appending
one evidence. -/
def ReportObj.AddEvidence (rep : ReportObj) (ev : Evidence) : ReportObj :=
  ⟨rep.Evidences ++ [ev]⟩

/-! ## The receptor methods

The receiver `r *Receptor` is the first argument of each method. -/

/-- `func (r *Receptor) GetReceptorType() string`. -/
def GetReceptorType (_r : Option Receptor) : String := receptorName

/-- `func (r *Receptor) GetKnownServices() []string`. -/
def GetKnownServices (_r : Option Receptor) : List String := [serviceName1]

/-- `func (r *Receptor) GetCredentialObj() interface{}`: the receiver itself. -/
def GetCredentialObj (r : Option Receptor) : Credentials := .receptorPtr r

/-- What Verify returns: the named results `ok` and `err`, and the log lines the
call wrote. -/
structure VerifyResult where
  ok : Bool
  err : GoError
  logged : List String
  deriving DecidableEq, Repr

/-- `func (r *Receptor) Verify(credentials interface{}) (ok bool, err error)`. -/
def Verify (_r : Option Receptor) (credentials : Credentials) : Except Panic VerifyResult := do
  let err : GoError := none
  let c ← assertReceptor credentials
  let firstName ← derefFirstName c
  let logged := ["verify: checking credentials for " ++ firstName]
  let ok := decide (err = none)
  return { ok := ok, err := err, logged := logged }

/-- `func (r *Receptor) Discover(credentials interface{})
(svcs []*receptor_v1.ServiceEntity, err error)`. -/
def Discover (_r : Option Receptor) (_credentials : Credentials) :
    Except Panic (List ServiceEntity × GoError) := do
  let err : GoError := none
  let services := NewServiceEntities
  let services := services.AddService serviceName1 "Language" "English" "en"
  let services := services.AddService serviceName1 "Language" "German" "de"
  let services := services.AddService serviceName1 "Language" "Italian" "it"
  return (services.Entities, err)

/-- `func (r *Receptor) Report(credentials interface{})
(evidences []*receptor_sdk.Evidence, err error)`. -/
def Report (_r : Option Receptor) (credentials : Credentials) :
    Except Panic (List Evidence × GoError) := do
  let err : GoError := none
  let c ← assertReceptor credentials
  let report := NewReport
  let caption := serviceName1 ++ " Hello Translations"
  let description := "List of translations of the term \x27Hello, [user]\x27"
  let evidence := NewEvidence serviceName1 "Language" caption description
  let evidence := evidence.AddSource
    "https://translate.google.com/?sl=auto&tl=en&text=Hello&op=translate" "Hello"
  let firstName ← derefFirstName c
  let evidence := evidence.AddRow
    { LangId := "en", Language := "English", Phrase := "Hello, " ++ firstName }
  let evidence := evidence.AddSource
    "https://translate.google.com/?sl=auto&tl=it&text=Hello&op=translate" "Ciao"
  let firstName ← derefFirstName c
  let evidence := evidence.AddRow
    { LangId := "it", Language := "Italian", Phrase := "Ciao, " ++ firstName }
  let evidence := evidence.AddSource
    "https://translate.google.com/?sl=auto&tl=de&text=Hello&op=translate" "Hallo"
  let firstName ← derefFirstName c
  let evidence := evidence.AddRow
    { LangId := "de", Language := "German", Phrase := "Hallo, " ++ firstName }
  let report := report.AddEvidence evidence
  return (report.Evidences, err)

/-- A credential that is a (non-nil) Receptor record. -/
def receptorCredential (c : Receptor) : Credentials := .receptorPtr (some c)

/-! ## Report over an explicit object store

In Go the report and the evidence are objects reached through pointers:
`NewReport` and `NewEvidence` hand out a pointer, `AddSource`, `AddRow` and
`AddEvidence` write through it, and Report returns a slice of pointers. Here
the objects alive at one moment are an explicit store, threaded through the
call, so that a call can be started in any store, also the one an earlier call
left behind. -/

/-- Applies `f` to the element at position `i`; a position outside the list
leaves it unchanged. -/
def updateAt {α : Type} : List α → Nat → (α → α) → List α
  | [], _, _ => []
  | a :: as, 0, f => f a :: as
  | a :: as, i + 1, f => a :: updateAt as i f

/-- Modelled from the spec: the objects of the external SDK alive at one moment.
An evidence pointer is a position in `evidences`; a report pointer is a position
in `reports`, and a report object holds the evidence pointers added to it. -/
structure Store where
  evidences : List Evidence
  reports : List (List Nat)
  deriving DecidableEq, Repr

/-- Modelled from the spec: `receptor_sdk.NewReport` of the external SDK as an
allocation: a new empty report object and the pointer to it (spec §3: a report
is created per call and nothing survives across calls). -/
def Store.newReport (s : Store) : Nat × Store :=
  (s.reports.length, { s with reports := s.reports ++ [[]] })

/-- Modelled from the spec: `receptor_sdk.NewEvidence` of the external SDK as an
allocation: a new evidence object without citation or row and the pointer to it
(spec §3: an evidence is created per report-generation call). -/
def Store.newEvidence (s : Store) (serviceName entityType caption description : String) :
    Nat × Store :=
  (s.evidences.length,
    { s with evidences := s.evidences ++ [NewEvidence serviceName entityType caption description] })

/-- Modelled from the spec: `Evidence.AddSource` of the external SDK, writing
through the evidence pointer `ev`. -/
def Store.addSource (s : Store) (ev : Nat) (uri observed : String) : Store :=
  { s with evidences := updateAt s.evidences ev fun e => e.AddSource uri observed }

/-- Modelled from the spec: `Evidence.AddRow` of the external SDK, writing
through the evidence pointer `ev`. -/
def Store.addRow (s : Store) (ev : Nat) (row : TrusteroTranslationRow) : Store :=
  { s with evidences := updateAt s.evidences ev fun e => e.AddRow row }

/-- Modelled from the spec: `Report.AddEvidence` of the external SDK, writing
through the report pointer `rep`: the evidence pointer is appended. -/
def Store.addEvidence (s : Store) (rep ev : Nat) : Store :=
  { s with reports := updateAt s.reports rep fun evs => evs ++ [ev] }

/-- The field read `report.Evidences` through the report pointer `rep`. -/
def Store.reportEvidences (s : Store) (rep : Nat) : List Nat :=
  (s.reports[rep]?).getD []

/-- What the host sees behind a returned slice of evidence pointers. -/
def Store.read (s : Store) (ptrs : List Nat) : List (Option Evidence) :=
  ptrs.map fun p => s.evidences[p]?

/-- `func (r *Receptor) Report(credentials interface{})
(evidences []*receptor_sdk.Evidence, err error)`, started in the store `s`:
the returned evidence pointers, the error, and the store the call leaves. -/
def ReportIn (_r : Option Receptor) (credentials : Credentials) (s : Store) :
    Except Panic ((List Nat × GoError) × Store) := do
  let err : GoError := none
  let c ← assertReceptor credentials
  let (report, s) := s.newReport
  let caption := serviceName1 ++ " Hello Translations"
  let description := "List of translations of the term \x27Hello, [user]\x27"
  let (evidence, s) := s.newEvidence serviceName1 "Language" caption description
  let s := s.addSource evidence
    "https://translate.google.com/?sl=auto&tl=en&text=Hello&op=translate" "Hello"
  let firstName ← derefFirstName c
  let s := s.addRow evidence
    { LangId := "en", Language := "English", Phrase := "Hello, " ++ firstName }
  let s := s.addSource evidence
    "https://translate.google.com/?sl=auto&tl=it&text=Hello&op=translate" "Ciao"
  let firstName ← derefFirstName c
  let s := s.addRow evidence
    { LangId := "it", Language := "Italian", Phrase := "Ciao, " ++ firstName }
  let s := s.addSource evidence
    "https://translate.google.com/?sl=auto&tl=de&text=Hello&op=translate" "Hallo"
  let firstName ← derefFirstName c
  let s := s.addRow evidence
    { LangId := "de", Language := "German", Phrase := "Hallo, " ++ firstName }
  let s := s.addEvidence report evidence
  return ((s.reportEvidences report, err), s)

/-! ## Closed forms -/

/-- The evidence Report builds for the first name `n`. -/
def helloEvidence (n : String) : Evidence :=
  { ServiceName := "Translate", EntityType := "Language",
    Caption := "Translate Hello Translations",
    Description := "List of translations of the term \x27Hello, [user]\x27",
    Sources :=
      [⟨"https://translate.google.com/?sl=auto&tl=en&text=Hello&op=translate", "Hello"⟩,
       ⟨"https://translate.google.com/?sl=auto&tl=it&text=Hello&op=translate", "Ciao"⟩,
       ⟨"https://translate.google.com/?sl=auto&tl=de&text=Hello&op=translate", "Hallo"⟩],
    Rows :=
      [⟨"en", "English", "Hello, " ++ n⟩,
       ⟨"it", "Italian", "Ciao, " ++ n⟩,
       ⟨"de", "German", "Hallo, " ++ n⟩] }

/-- The entities Discover builds. -/
def helloEntities : List ServiceEntity :=
  [⟨"Translate", "Language", "English", "en"⟩,
   ⟨"Translate", "Language", "German", "de"⟩,
   ⟨"Translate", "Language", "Italian", "it"⟩]

/-! ## Evaluation lemmas -/

theorem caption_eq :
    serviceName1 ++ " Hello Translations" = "Translate Hello Translations" := by
  decide

theorem Report_receptor (r : Option Receptor) (c : Receptor) :
    Report r (receptorCredential c) = .ok ([helloEvidence c.FirstName], none) := by
  rfl

theorem Report_nilInterface (r : Option Receptor) :
    Report r .nilInterface = .error .typeAssertion := by
  rfl

theorem Report_foreign (r : Option Receptor) (t : String) :
    Report r (.foreign t) = .error .typeAssertion := by
  rfl

theorem Report_nilPointer (r : Option Receptor) :
    Report r (.receptorPtr none) = .error .nilDereference := by
  rfl

theorem Verify_receptor (r : Option Receptor) (c : Receptor) :
    Verify r (receptorCredential c) =
      .ok ⟨true, none, ["verify: checking credentials for " ++ c.FirstName]⟩ := by
  rfl

theorem Verify_nilInterface (r : Option Receptor) :
    Verify r .nilInterface = .error .typeAssertion := by
  rfl

theorem Verify_foreign (r : Option Receptor) (t : String) :
    Verify r (.foreign t) = .error .typeAssertion := by
  rfl

theorem Verify_nilPointer (r : Option Receptor) :
    Verify r (.receptorPtr none) = .error .nilDereference := by
  rfl

theorem Discover_eq (r : Option Receptor) (creds : Credentials) :
    Discover r creds = .ok (helloEntities, none) := by
  rfl

theorem updateAt_append_length {α : Type} (as : List α) (a : α) (f : α → α) :
    updateAt (as ++ [a]) as.length f = as ++ [f a] := by
  induction as with
  | nil => rfl
  | cons b bs ih => simp [updateAt, ih]

theorem getElem?_append_length {α : Type} (as : List α) (a : α) :
    (as ++ [a])[as.length]? = some a := by
  simp

theorem getElem?_append_append_length {α : Type} (as : List α) (a b : α) :
    (as ++ [a] ++ [b])[as.length]? = some a := by
  induction as with
  | nil => rfl
  | cons c cs ih => simpa using ih

/-- Report started in any store allocates one report and one evidence after the
objects already there, and leaves exactly the evidence of the pure reading. -/
theorem ReportIn_receptor (r : Option Receptor) (c : Receptor) (s : Store) :
    ReportIn r (receptorCredential c) s =
      .ok (([s.evidences.length], none),
        { evidences := s.evidences ++ [helloEvidence c.FirstName],
          reports := s.reports ++ [[s.evidences.length]] }) := by
  obtain ⟨es, rs⟩ := s
  simp only [ReportIn, receptorCredential, assertReceptor, derefFirstName, Store.newReport,
    Store.newEvidence, Store.addSource, Store.addRow, Store.addEvidence,
    Store.reportEvidences, updateAt_append_length, bind, Except.bind, pure, Except.pure]
  simp [helloEvidence, NewEvidence, Evidence.AddSource, Evidence.AddRow, serviceName1,
    caption_eq]

/-- Whenever Report returns, it returns the complete evidence of some Receptor. -/
theorem Report_ok_inv (r : Option Receptor) (creds : Credentials)
    (out : List Evidence × GoError) (h : Report r creds = .ok out) :
    ∃ c : Receptor, creds = receptorCredential c ∧ out = ([helloEvidence c.FirstName], none) := by
  cases creds with
  | nilInterface => rw [Report_nilInterface] at h; cases h
  | foreign t => rw [Report_foreign] at h; cases h
  | receptorPtr p =>
    cases p with
    | none => rw [Report_nilPointer] at h; cases h
    | some c =>
      refine ⟨c, rfl, ?_⟩
      have h2 := Report_receptor r c
      unfold receptorCredential at h2
      rw [h2] at h
      cases h
      rfl

/-- Whenever Verify returns, it returns `ok = true` and the nil error. -/
theorem Verify_ok_inv (r : Option Receptor) (creds : Credentials)
    (res : VerifyResult) (h : Verify r creds = .ok res) :
    res.ok = true ∧ res.err = none := by
  cases creds with
  | nilInterface => rw [Verify_nilInterface] at h; cases h
  | foreign t => rw [Verify_foreign] at h; cases h
  | receptorPtr p =>
    cases p with
    | none => rw [Verify_nilPointer] at h; cases h
    | some c =>
      have h2 := Verify_receptor r c
      unfold receptorCredential at h2
      rw [h2] at h
      cases h
      exact ⟨rfl, rfl⟩

/-! ## Report: rows, citations, metadata -/

/-- C1: for every Receptor credential with first name `n`, Report returns one
evidence whose rows are exactly, in this order, (en, English, "Hello, " ++ n),
(it, Italian, "Ciao, " ++ n), (de, German, "Hallo, " ++ n); for the first name
"Ada" the phrases are "Hello, Ada", "Ciao, Ada", "Hallo, Ada". -/
theorem Report_rows_exact :
    (∀ (r : Option Receptor) (c : Receptor), ∃ ev : Evidence,
      Report r (receptorCredential c) = .ok ([ev], none) ∧
      ev.Rows =
        [{ LangId := "en", Language := "English", Phrase := "Hello, " ++ c.FirstName },
         { LangId := "it", Language := "Italian", Phrase := "Ciao, " ++ c.FirstName },
         { LangId := "de", Language := "German", Phrase := "Hallo, " ++ c.FirstName }]) ∧
    (∀ r : Option Receptor, ∃ ev : Evidence,
      Report r (receptorCredential { FirstName := "Ada" }) = .ok ([ev], none) ∧
      ev.Rows =
        [{ LangId := "en", Language := "English", Phrase := "Hello, Ada" },
         { LangId := "it", Language := "Italian", Phrase := "Ciao, Ada" },
         { LangId := "de", Language := "German", Phrase := "Hallo, Ada" }]) := by
  refine ⟨fun r c => ⟨helloEvidence c.FirstName, Report_receptor r c, rfl⟩, fun r => ?_⟩
  exact ⟨helloEvidence "Ada", Report_receptor r { FirstName := "Ada" }, by decide⟩

/-- C4: for every Receptor credential with first name `n`, the evidence of Report
has three citations and three rows (so at least as many citations as rows), and
citation i is paired with row i: the row's phrase is the citation's observed
value followed by ", " and `n`, and the citation's URI is the translation URL
for the row's language identifier. -/
theorem Report_citations_paired (r : Option Receptor) (c : Receptor) :
    ∃ ev : Evidence,
      Report r (receptorCredential c) = .ok ([ev], none) ∧
      ev.Rows.length ≤ ev.Sources.length ∧
      ev.Rows.length = 3 ∧ ev.Sources.length = 3 ∧
      List.Forall₂
        (fun (row : TrusteroTranslationRow) (src : Source) =>
          row.Phrase = src.observed ++ ", " ++ c.FirstName ∧
          src.uri = "https://translate.google.com/?sl=auto&tl=" ++ row.LangId
            ++ "&text=Hello&op=translate")
        ev.Rows ev.Sources := by
  refine ⟨helloEvidence c.FirstName, Report_receptor r c, Nat.le_refl 3, rfl, rfl, ?_⟩
  have e1 : "Hello, " = "Hello" ++ ", " := by decide
  have e2 : "Ciao, " = "Ciao" ++ ", " := by decide
  have e3 : "Hallo, " = "Hallo" ++ ", " := by decide
  have u1 : "https://translate.google.com/?sl=auto&tl=en&text=Hello&op=translate"
      = "https://translate.google.com/?sl=auto&tl=" ++ "en" ++ "&text=Hello&op=translate" := by
    decide
  have u2 : "https://translate.google.com/?sl=auto&tl=it&text=Hello&op=translate"
      = "https://translate.google.com/?sl=auto&tl=" ++ "it" ++ "&text=Hello&op=translate" := by
    decide
  have u3 : "https://translate.google.com/?sl=auto&tl=de&text=Hello&op=translate"
      = "https://translate.google.com/?sl=auto&tl=" ++ "de" ++ "&text=Hello&op=translate" := by
    decide
  refine List.Forall₂.cons ⟨?_, u1⟩
    (List.Forall₂.cons ⟨?_, u2⟩ (List.Forall₂.cons ⟨?_, u3⟩ List.Forall₂.nil))
  · show "Hello, " ++ c.FirstName = "Hello" ++ ", " ++ c.FirstName
    rw [e1]
  · show "Ciao, " ++ c.FirstName = "Ciao" ++ ", " ++ c.FirstName
    rw [e2]
  · show "Hallo, " ++ c.FirstName = "Hallo" ++ ", " ++ c.FirstName
    rw [e3]

/-- C5: for every Receptor credential, Report returns a sequence of exactly one
evidence, built for service "Translate" and entity type "Language" with the
caption "Translate Hello Translations" and the fixed description; the four
values are the same for any two credentials. -/
theorem Report_single_evidence_metadata :
    (∀ (r : Option Receptor) (c : Receptor), ∃ ev : Evidence,
      Report r (receptorCredential c) = .ok ([ev], none) ∧
      ev.ServiceName = "Translate" ∧ ev.EntityType = "Language" ∧
      ev.Caption = "Translate Hello Translations" ∧
      ev.Description = "List of translations of the term \x27Hello, [user]\x27") ∧
    (∀ (r₁ r₂ : Option Receptor) (c₁ c₂ : Receptor), ∃ ev₁ ev₂ : Evidence,
      Report r₁ (receptorCredential c₁) = .ok ([ev₁], none) ∧
      Report r₂ (receptorCredential c₂) = .ok ([ev₂], none) ∧
      ev₁.ServiceName = ev₂.ServiceName ∧ ev₁.EntityType = ev₂.EntityType ∧
      ev₁.Caption = ev₂.Caption ∧ ev₁.Description = ev₂.Description) := by
  refine ⟨fun r c => ⟨helloEvidence c.FirstName, Report_receptor r c, rfl, rfl, rfl, rfl⟩, ?_⟩
  intro r₁ r₂ c₁ c₂
  exact ⟨helloEvidence c₁.FirstName, helloEvidence c₂.FirstName,
    Report_receptor r₁ c₁, Report_receptor r₂ c₂, rfl, rfl, rfl, rfl⟩

/-- C6: Report is deterministic and stateless. For any two receivers, any two
Receptor credentials with the same first name and any two stores the calls are
started in, both calls return the nil error and one evidence pointer, and what
stands behind the two pointers is the same evidence: the fixed metadata, the
three citations in source order and the three rows for that first name in
source order, which is also what the pure reading of Report returns. A call
changes no object that was there before it. A further call with the same
credential, started in the store the first call left, gives identical content
and leaves the first call's evidence as it was. -/
theorem Report_deterministic (r₁ r₂ : Option Receptor) (c₁ c₂ : Receptor)
    (s₁ s₂ : Store) (h : c₁.FirstName = c₂.FirstName) :
    ∃ (p₁ p₂ p₃ : Nat) (t₁ t₂ t₃ : Store) (ev : Evidence),
      ReportIn r₁ (receptorCredential c₁) s₁ = .ok (([p₁], none), t₁) ∧
      ReportIn r₂ (receptorCredential c₂) s₂ = .ok (([p₂], none), t₂) ∧
      ReportIn r₂ (receptorCredential c₂) t₁ = .ok (([p₃], none), t₃) ∧
      t₁.read [p₁] = [some ev] ∧ t₂.read [p₂] = [some ev] ∧
      t₃.read [p₃] = [some ev] ∧ t₃.read [p₁] = [some ev] ∧ p₃ ≠ p₁ ∧
      Report r₁ (receptorCredential c₁) = .ok ([ev], none) ∧
      Report r₂ (receptorCredential c₂) = .ok ([ev], none) ∧
      ev.ServiceName = "Translate" ∧ ev.EntityType = "Language" ∧
      ev.Caption = "Translate Hello Translations" ∧
      ev.Description = "List of translations of the term \x27Hello, [user]\x27" ∧
      ev.Sources =
        [{ uri := "https://translate.google.com/?sl=auto&tl=en&text=Hello&op=translate",
           observed := "Hello" },
         { uri := "https://translate.google.com/?sl=auto&tl=it&text=Hello&op=translate",
           observed := "Ciao" },
         { uri := "https://translate.google.com/?sl=auto&tl=de&text=Hello&op=translate",
           observed := "Hallo" }] ∧
      ev.Rows =
        [{ LangId := "en", Language := "English", Phrase := "Hello, " ++ c₁.FirstName },
         { LangId := "it", Language := "Italian", Phrase := "Ciao, " ++ c₁.FirstName },
         { LangId := "de", Language := "German", Phrase := "Hallo, " ++ c₁.FirstName }] ∧
      (∃ es rs, t₁.evidences = s₁.evidences ++ es ∧ t₁.reports = s₁.reports ++ rs) ∧
      (∃ es rs, t₂.evidences = s₂.evidences ++ es ∧ t₂.reports = s₂.reports ++ rs) ∧
      (∃ es rs, t₃.evidences = t₁.evidences ++ es ∧ t₃.reports = t₁.reports ++ rs) := by
  refine ⟨_, _, _, _, _, _, helloEvidence c₁.FirstName,
    ReportIn_receptor r₁ c₁ s₁, ReportIn_receptor r₂ c₂ s₂, ReportIn_receptor r₂ c₂ _,
    ?_, ?_, ?_, ?_, ?_, Report_receptor r₁ c₁, ?_, rfl, rfl, rfl, rfl, rfl, rfl,
    ⟨_, _, rfl, rfl⟩, ⟨_, _, rfl, rfl⟩, ⟨_, _, rfl, rfl⟩⟩
  · simp only [Store.read, List.map, getElem?_append_length]
  · simp only [Store.read, List.map, getElem?_append_length, h]
  · simp only [Store.read, List.map, getElem?_append_length, h]
  · simp only [Store.read, List.map, getElem?_append_append_length]
  · simp
  · rw [h]
    exact Report_receptor r₂ c₂

theorem Report_deterministic_witness :
    ∃ (p₁ p₂ p₃ : Nat) (t₁ t₂ t₃ : Store) (ev : Evidence),
      ReportIn none (receptorCredential { FirstName := "Ada" })
        { evidences := [], reports := [] } = .ok (([p₁], none), t₁) ∧
      ReportIn (some { FirstName := "Bob" }) (receptorCredential { FirstName := "Ada" })
        { evidences := [helloEvidence "Zoe"], reports := [[0]] } = .ok (([p₂], none), t₂) ∧
      ReportIn (some { FirstName := "Bob" }) (receptorCredential { FirstName := "Ada" })
        t₁ = .ok (([p₃], none), t₃) ∧
      t₁.read [p₁] = [some ev] ∧ t₂.read [p₂] = [some ev] ∧
      t₃.read [p₃] = [some ev] ∧ t₃.read [p₁] = [some ev] ∧ p₃ ≠ p₁ ∧
      ev.Rows =
        [{ LangId := "en", Language := "English", Phrase := "Hello, Ada" },
         { LangId := "it", Language := "Italian", Phrase := "Ciao, Ada" },
         { LangId := "de", Language := "German", Phrase := "Hallo, Ada" }] := by
  obtain ⟨p₁, p₂, p₃, t₁, t₂, t₃, ev, h₁, h₂, h₃, e₁, e₂, e₃, e₄, hp, _, _, _, _, _, _, _,
    hrows, _⟩ :=
    Report_deterministic none (some { FirstName := "Bob" })
      { FirstName := "Ada" } { FirstName := "Ada" }
      { evidences := [], reports := [] }
      { evidences := [helloEvidence "Zoe"], reports := [[0]] } rfl
  have hada : ("Hello, " ++ "Ada" = "Hello, Ada") ∧ ("Ciao, " ++ "Ada" = "Ciao, Ada") ∧
      ("Hallo, " ++ "Ada" = "Hallo, Ada") := by decide
  exact ⟨p₁, p₂, p₃, t₁, t₂, t₃, ev, h₁, h₂, h₃, e₁, e₂, e₃, e₄, hp, by
    rw [hrows, hada.1, hada.2.1, hada.2.2]⟩

/-- C7: for every Receptor credential, also one with the empty first name, every
row of the evidence returned by Report has a non-empty identifier LangId. -/
theorem Report_rows_identifier_nonempty :
    (∀ (r : Option Receptor) (c : Receptor), ∃ ev : Evidence,
      Report r (receptorCredential c) = .ok ([ev], none) ∧
      ev.Rows ≠ [] ∧
      ∀ row ∈ ev.Rows, row.LangId ≠ "") ∧
    (∀ r : Option Receptor, ∃ ev : Evidence,
      Report r (receptorCredential { FirstName := "" }) = .ok ([ev], none) ∧
      ev.Rows.map (fun row => row.LangId) = ["en", "it", "de"]) := by
  refine ⟨fun r c => ⟨helloEvidence c.FirstName, Report_receptor r c, ?_, ?_⟩,
    fun r => ⟨helloEvidence "", Report_receptor r { FirstName := "" }, rfl⟩⟩
  · simp [helloEvidence]
  · intro row hrow
    simp only [helloEvidence, List.mem_cons, List.mem_singleton, List.not_mem_nil,
      or_false] at hrow
    have hen : "en" ≠ "" := by decide
    have hit : "it" ≠ "" := by decide
    have hde : "de" ≠ "" := by decide
    rcases hrow with h | h | h <;> subst h
    · exact hen
    · exact hit
    · exact hde

theorem Report_rows_identifier_nonempty_witness :
    ∃ ev : Evidence,
      Report none (receptorCredential { FirstName := "" }) = .ok ([ev], none) ∧
      ev.Rows ≠ [] ∧
      ∀ row ∈ ev.Rows, row.LangId ≠ "" :=
  Report_rows_identifier_nonempty.1 none { FirstName := "" }

/-! ## Verify -/

/-- C3: for every Receptor credential, whatever its first name (the empty one
included), Verify returns valid = true together with the nil error; and the
outcome is binary: whenever Verify returns, its flag is true exactly when its
error is nil. -/
theorem Verify_true_nil :
    (∀ (r : Option Receptor) (c : Receptor), ∃ res : VerifyResult,
      Verify r (receptorCredential c) = .ok res ∧ res.ok = true ∧ res.err = none) ∧
    (∀ r : Option Receptor, ∃ res : VerifyResult,
      Verify r (receptorCredential { FirstName := "" }) = .ok res ∧
      res.ok = true ∧ res.err = none) ∧
    (∀ (r : Option Receptor) (creds : Credentials) (res : VerifyResult),
      Verify r creds = .ok res → (res.ok = true ↔ res.err = none)) := by
  refine ⟨fun r c => ⟨_, Verify_receptor r c, rfl, rfl⟩,
    fun r => ⟨_, Verify_receptor r { FirstName := "" }, rfl, rfl⟩, ?_⟩
  intro r creds res h
  have hres := Verify_ok_inv r creds res h
  exact ⟨fun _ => hres.2, fun _ => hres.1⟩

theorem Verify_true_nil_witness :
    ((VerifyResult.mk true none ["verify: checking credentials for Ada"]).ok = true ↔
      (VerifyResult.mk true none ["verify: checking credentials for Ada"]).err = none) :=
  Verify_true_nil.2.2 none (receptorCredential { FirstName := "Ada" })
    ⟨true, none, ["verify: checking credentials for Ada"]⟩ rfl

/-! ## Discover -/

/-- C2: for every credential, Discover returns exactly three entities; all three
carry the service name "Translate" and the entity type "Language", their
identifiers are pairwise distinct, and no (serviceName, entityType, identifier)
triple occurs twice. -/
theorem Discover_three_distinct (r : Option Receptor) (creds : Credentials) :
    ∃ svcs : List ServiceEntity,
      Discover r creds = .ok (svcs, none) ∧
      svcs.length = 3 ∧
      svcs.map (fun e => e.serviceName) = ["Translate", "Translate", "Translate"] ∧
      svcs.map (fun e => e.entityType) = ["Language", "Language", "Language"] ∧
      List.Pairwise (fun a b => a.identifier ≠ b.identifier) svcs ∧
      (svcs.map (fun e => (e.serviceName, e.entityType, e.identifier))).Nodup := by
  refine ⟨helloEntities, Discover_eq r creds, rfl, rfl, rfl, ?_, ?_⟩
  · unfold helloEntities
    decide
  · unfold helloEntities
    decide

/-- C8: Discover and Report always return the nil error: for every credential
Discover returns its three entities with the nil error; for every Receptor
credential Report returns its evidence with the nil error; and whenever Report
returns at all, the error is nil and the data is the complete evidence of one
Receptor (three citations, three rows). -/
theorem Discover_Report_err_nil :
    (∀ (r : Option Receptor) (creds : Credentials), ∃ svcs : List ServiceEntity,
      Discover r creds = .ok (svcs, none) ∧ svcs.length = 3) ∧
    (∀ (r : Option Receptor) (c : Receptor), ∃ ev : Evidence,
      Report r (receptorCredential c) = .ok ([ev], none) ∧
      ev.Sources.length = 3 ∧ ev.Rows.length = 3) ∧
    (∀ (r : Option Receptor) (creds : Credentials) (out : List Evidence × GoError),
      Report r creds = .ok out →
        out.2 = none ∧ ∃ ev : Evidence,
          out.1 = [ev] ∧ ev.Sources.length = 3 ∧ ev.Rows.length = 3) := by
  refine ⟨fun r creds => ⟨helloEntities, Discover_eq r creds, rfl⟩,
    fun r c => ⟨helloEvidence c.FirstName, Report_receptor r c, rfl, rfl⟩, ?_⟩
  intro r creds out h
  obtain ⟨c, _, hout⟩ := Report_ok_inv r creds out h
  subst hout
  exact ⟨rfl, helloEvidence c.FirstName, rfl, rfl, rfl⟩

theorem Discover_Report_err_nil_witness :
    (([helloEvidence "Ada"], none) : List Evidence × GoError).2 = none ∧
      ∃ ev : Evidence, (([helloEvidence "Ada"], none) : List Evidence × GoError).1 = [ev] ∧
        ev.Sources.length = 3 ∧ ev.Rows.length = 3 :=
  Discover_Report_err_nil.2.2 none (receptorCredential { FirstName := "Ada" })
    ([helloEvidence "Ada"], none) rfl

/-- C9: Discover ignores its credential argument: for any two receivers and any
two credentials of any kind, both calls return, with the same entity list and
the nil error; this holds on the nil interface, on a nil pointer and on a value
of another type, on which Verify and Report stop at the type assertion or at
the field access. -/
theorem Discover_ignores_credentials :
    (∀ (r₁ r₂ : Option Receptor) (creds₁ creds₂ : Credentials),
      ∃ svcs : List ServiceEntity,
        Discover r₁ creds₁ = .ok (svcs, none) ∧ Discover r₂ creds₂ = .ok (svcs, none)) ∧
    (∀ (r : Option Receptor) (t : String),
      Verify r .nilInterface = .error .typeAssertion ∧
      Report r .nilInterface = .error .typeAssertion ∧
      Verify r (.foreign t) = .error .typeAssertion ∧
      Report r (.foreign t) = .error .typeAssertion ∧
      Verify r (.receptorPtr none) = .error .nilDereference ∧
      Report r (.receptorPtr none) = .error .nilDereference ∧
      (∃ svcs : List ServiceEntity, svcs.length = 3 ∧
        Discover r .nilInterface = .ok (svcs, none) ∧
        Discover r (.foreign t) = .ok (svcs, none) ∧
        Discover r (.receptorPtr none) = .ok (svcs, none))) := by
  refine ⟨fun r₁ r₂ creds₁ creds₂ =>
    ⟨helloEntities, Discover_eq r₁ creds₁, Discover_eq r₂ creds₂⟩, ?_⟩
  intro r t
  exact ⟨Verify_nilInterface r, Report_nilInterface r, Verify_foreign r t, Report_foreign r t,
    Verify_nilPointer r, Report_nilPointer r,
    helloEntities, rfl, Discover_eq r _, Discover_eq r _, Discover_eq r _⟩

/-- C10: Discover and Report describe the same entities: for every Receptor
credential, the (identifier, displayName) pairs of the entities of Discover,
en/English, de/German, it/Italian, are a permutation of the (LangId, Language)
pairs of the rows of Report, en/English, it/Italian, de/German. -/
theorem Discover_Report_same_entities (r : Option Receptor) (c : Receptor) :
    ∃ (svcs : List ServiceEntity) (ev : Evidence),
      Discover r (receptorCredential c) = .ok (svcs, none) ∧
      Report r (receptorCredential c) = .ok ([ev], none) ∧
      svcs.map (fun e => (e.identifier, e.displayName))
        = [("en", "English"), ("de", "German"), ("it", "Italian")] ∧
      ev.Rows.map (fun row => (row.LangId, row.Language))
        = [("en", "English"), ("it", "Italian"), ("de", "German")] ∧
      List.Perm (svcs.map (fun e => (e.identifier, e.displayName)))
        (ev.Rows.map (fun row => (row.LangId, row.Language))) := by
  refine ⟨helloEntities, helloEvidence c.FirstName, Discover_eq r _, Report_receptor r c,
    rfl, rfl, ?_⟩
  show List.Perm [("en", "English"), ("de", "German"), ("it", "Italian")]
    [("en", "English"), ("it", "Italian"), ("de", "German")]
  exact List.Perm.cons _ (List.Perm.swap _ _ _)

end HelloWorld
